import Mathlib

/-!
Verification of the crepe-slot ticketing app (src/app.py) against its
natural-language specification.

The program is a single-file spreadsheet-backed slot/ticket allocator.  We give
a shallow embedding of its data model and of the operations the claims are
about: `ensure_headers` (line 97), `ensure_today_slots` (line 108),
`state_set` (line 145), `to_dt` (line 164), `issue_ticket` (line 169), and the
inline slot open/close toggle of `page_manage` (lines 357-383).

Modelling conventions, stated once:

* Plain reads through the Streamlit cache layer (`st.cache_data`) are
  modelled as reads of the current contents of the backing store.  The idiom
  `list_slots_df.clear()(date_str)` at src/app.py line 115 is different:
  `CachedFunc.clear()` returns `None`, so this expression calls `None` and
  raises `TypeError: 'NoneType' object is not callable` unconditionally.
  `ensure_today_slots` embeds this faithfully (`PyError.noneNotCallable`);
  its only store effect is the header ensure of line 113, and its day check
  and generation loop (lines 116-131) are dead code.  (The same idiom
  appears at lines 254 and 336 inside the page-rendering layer, which is not
  part of the embedded operations.)
* The `slots` worksheet is modelled as a typed list of `SlotRow` records plus
  its header row; reading it through `get_all_records` / `get_all_values` and
  locating columns through `headers.index(...)` presumes the canonical header
  row, which `ensure_today_slots` establishes; the raw, untyped behaviour of
  `ensure_headers` on an arbitrary worksheet is modelled separately on
  `List (List String)` for the schema-mismatch claim.
* The clock reading `datetime.now(JST)` is modelled by its whole epoch-second
  value (`int(now.timestamp())` in the ticket-id computation truncates to whole
  seconds; sub-second detail is not observable in any modelled output).  The
  JST calendar day of an epoch second `n` is `(n + 9*3600) / 86400`, and the
  `%Y%m%d` rendering is computed from that day number by the standard
  civil-from-days algorithm.
* A `datetime` value produced by `to_dt` (a fixed date combined with a
  time-of-day) is modelled as the date string plus minutes since midnight of
  that date; adding the grace period may push `minutes` to `1440` or beyond,
  which represents a timestamp on a later calendar day.
* Python exceptions raised by `issue_ticket` become constructors of
  `IssueError`; `int(...)`/`datetime` parse-or-raise becomes `Option`.
* `issue_ticket` re-reads the slots worksheet twice (step 1 `get_all_records`,
  step 3 `get_all_values`).  `issue_ticket_at` keeps the step-1 snapshot as a
  separate argument so that an interleaved store mutation between the two reads
  is expressible; the sequential call `issue_ticket` instantiates the snapshot
  with the live store.
-/

namespace Crepe

/-- Policy constants of the app (src/app.py lines 35-39), times as minutes
since midnight: `ISSUE_START = time(11, 0)`. -/
def ISSUE_START : Nat := 11 * 60

/-- `ISSUE_END = time(15, 30)`: start of the last issued slot. -/
def ISSUE_END : Nat := 15 * 60 + 30

/-- `SLOT_MINUTES = 30`. -/
def SLOT_MINUTES : Nat := 30

/-- `CAP_PER_SLOT = 20` (sheet numbers are modelled as `Int`). -/
def CAP_PER_SLOT : Int := 20

/-- `EXPIRE_EXTRA_MIN = 30`: grace period in minutes past slot end. -/
def EXPIRE_EXTRA_MIN : Nat := 30

/-- Decimal digit character, as produced by Python string formatting
(total function; only ever applied to values `< 10`). -/
def dig (n : Nat) : Char :=
  match n with
  | 0 => '0' | 1 => '1' | 2 => '2' | 3 => '3' | 4 => '4'
  | 5 => '5' | 6 => '6' | 7 => '7' | 8 => '8' | _ => '9'

/-- Two-digit zero-padded decimal rendering (`%H`, `%M`, `%m`, `%d`). -/
def pad2 (n : Nat) : String := String.mk [dig (n / 10 % 10), dig (n % 10)]

/-- Four-digit rendering of a year (`%Y`; years in scope are 1970-9999). -/
def pad4 (n : Nat) : String :=
  String.mk [dig (n / 1000 % 10), dig (n / 100 % 10), dig (n / 10 % 10), dig (n % 10)]

/-- Five-digit zero-padded rendering, `f"{k:05d}"` for `k < 100000`. -/
def pad5 (n : Nat) : String :=
  String.mk [dig (n / 10000 % 10), dig (n / 1000 % 10), dig (n / 100 % 10),
             dig (n / 10 % 10), dig (n % 10)]

/-- `cur.strftime("%H:%M")` for a time-of-day given in minutes since
midnight (all slot times in scope stay below 24:00). -/
def fmtHM (m : Nat) : String := pad2 (m / 60) ++ ":" ++ pad2 (m % 60)

/-- Civil date (year, month, day) of a day count since 1970-01-01, by the
standard era/day-of-era algorithm (valid for nonnegative day counts). -/
def civilOfDays (days : Nat) : Nat × Nat × Nat :=
  let z := days + 719468
  let era := z / 146097
  let doe := z % 146097
  let yoe := (doe - doe / 1460 + doe / 36524 - doe / 146096) / 365
  let y := yoe + era * 400
  let doy := doe - (365 * yoe + yoe / 4 - yoe / 100)
  let mp := (5 * doy + 2) / 153
  let d := doy - (153 * mp + 2) / 5 + 1
  let m := if mp < 10 then mp + 3 else mp - 9
  if m ≤ 2 then (y + 1, m, d) else (y, m, d)

/-- JST calendar-day number of an epoch second (JST = UTC+9, fixed offset). -/
def dayIndexJST (n : Nat) : Nat := (n + 9 * 3600) / 86400

/-- `now.strftime("%Y%m%d")` of the JST datetime with epoch second `n`. -/
def ymdStr (n : Nat) : String :=
  let c := civilOfDays (dayIndexJST n)
  pad4 c.1 ++ pad2 c.2.1 ++ pad2 c.2.2

/-- Ticket id computed at src/app.py line 194:
`now.strftime("%Y%m%d-") + f"{int(now.timestamp())%100000:05d}"`. -/
def mkTicketId (now : Nat) : String := ymdStr now ++ "-" ++ pad5 (now % 100000)

/-- Split a character list at every occurrence of `c` (Python `str.split`). -/
def splitChar (c : Char) : List Char → List (List Char)
  | [] => [[]]
  | x :: xs =>
    let r := splitChar c xs
    if x = c then [] :: r
    else
      match r with
      | [] => [[x]]
      | g :: gs => (x :: g) :: gs

/-- Python `int(...)` on a piece of a split string: digits-only parse
(the model restricts Python's `int` to its plain-decimal core). -/
def parseNatDigits (l : List Char) : Option Nat :=
  if l.isEmpty then none
  else if l.all (fun c => c.isDigit) then
    some (l.foldl (fun a c => a * 10 + (c.toNat - 48)) 0)
  else none

/-- Gregorian leap year. -/
def isLeap (y : Nat) : Bool := (y % 4 == 0 && y % 100 != 0) || y % 400 == 0

/-- Days in a month. -/
def daysInMonth (y m : Nat) : Nat :=
  if m = 2 then (if isLeap y then 29 else 28)
  else if m = 4 ∨ m = 6 ∨ m = 9 ∨ m = 11 then 30
  else 31

/-- Validity check of `datetime.fromisoformat(date_str)` for the strict
`YYYY-MM-DD` form (which is what the app ever passes). -/
def validDate (s : String) : Bool :=
  match splitChar '-' s.data with
  | [ys, ms, ds] =>
    ys.length == 4 && ms.length == 2 && ds.length == 2 &&
    ys.all (fun c => c.isDigit) && ms.all (fun c => c.isDigit) &&
    ds.all (fun c => c.isDigit) &&
    (match parseNatDigits ys, parseNatDigits ms, parseNatDigits ds with
     | some y, some mo, some da =>
       decide (1 ≤ y) && decide (1 ≤ mo) && decide (mo ≤ 12) &&
       decide (1 ≤ da) && decide (da ≤ daysInMonth y mo)
     | _, _, _ => false)
  | _ => false

/-- A fixed-offset (JST) datetime on the calendar day named by `date`,
`minutes` minutes after that day's midnight.  `minutes ≥ 1440` represents a
timestamp that has rolled past midnight onto a later calendar day. -/
structure LocalDT where
  date : String
  minutes : Nat
  deriving DecidableEq, Repr

/-- `to_dt(date_str, hm)` (src/app.py line 164): `h, m = map(int, hm.split(":"))`
then `datetime(d.year, d.month, d.day, h, m, tzinfo=JST)`; any parse or range
failure raises in Python and is `none` here. -/
def to_dt (date_str hm : String) : Option LocalDT :=
  match splitChar ':' hm.data with
  | [hs, ms] =>
    match parseNatDigits hs, parseNatDigits ms with
    | some h, some m =>
      if validDate date_str && decide (h < 24) && decide (m < 60) then
        some ⟨date_str, h * 60 + m⟩
      else none
    | _, _ => none
  | _ => none

/-- One data row of the `slots` worksheet, under the canonical header
`["date","slot_start","slot_end","cap","issued","open","note"]`.
The Python column name `open` is a Lean keyword and becomes `openFlag`. -/
structure SlotRow where
  date : String
  slot_start : String
  slot_end : String
  cap : Int
  issued : Int
  openFlag : Bool
  note : String
  deriving DecidableEq, Repr

/-- One data row of the `tickets` worksheet.  `issued_at` keeps the epoch
second of the clock reading (its `isoformat` rendering is not needed by any
claim); `expires_at` keeps the computed datetime. -/
structure Ticket where
  ticket_id : String
  issued_at : Nat
  date : String
  slot_start : String
  slot_end : String
  expires_at : LocalDT
  method : String
  status : String
  deriving DecidableEq, Repr

/-- The backing spreadsheet: the `slots` and `tickets` worksheets (header row
plus typed data rows) and the `state` key-value worksheet. -/
structure Store where
  slotsHeader : List String
  slots : List SlotRow
  ticketsHeader : List String
  tickets : List Ticket
  state : List (String × String)
  deriving DecidableEq, Repr

/-- Canonical header row of the `slots` worksheet (src/app.py line 112). -/
def slotsHeaders : List String :=
  ["date", "slot_start", "slot_end", "cap", "issued", "open", "note"]

/-- Canonical header row of the `tickets` worksheet (src/app.py line 189). -/
def ticketsHeaders : List String :=
  ["ticket_id", "issued_at", "date", "slot_start", "slot_end", "expires_at",
   "method", "status"]

/-- `ensure_headers(ws, headers)` (src/app.py lines 97-106) on a raw
worksheet, modelled as its list of rows (row 1 first); rows carry no trailing
empty cells, so `row_values(1)` of an absent or empty first row is `[]`.
If the first row equals `headers`, do nothing; if it is empty, write the
headers into row 1; otherwise `ws.clear()` discards every row and the headers
are written into the now-empty sheet. -/
def ensure_headers (ws : List (List String)) (headers : List String) :
    List (List String) :=
  let current := ws.headD []
  if current = headers then ws
  else if current = [] then
    match ws with
    | [] => [headers]
    | _ :: rest => headers :: rest
  else [headers]

/-- The effect of `ensure_headers` on the typed `tickets` worksheet
(called at src/app.py line 189): same three cases as `ensure_headers`,
with `ws.clear()` discarding all ticket rows. -/
def ensureTicketsHeaders (s : Store) : Store :=
  if s.ticketsHeader = ticketsHeaders then s
  else if s.ticketsHeader = [] then { s with ticketsHeader := ticketsHeaders }
  else { s with ticketsHeader := ticketsHeaders, tickets := [] }

/-- The effect of `ensure_headers` on the typed `slots` worksheet
(called at src/app.py line 113). -/
def ensureSlotsHeaders (s : Store) : Store :=
  if s.slotsHeader = slotsHeaders then s
  else if s.slotsHeader = [] then { s with slotsHeader := slotsHeaders }
  else { s with slotsHeader := slotsHeaders, slots := [] }

/-- The row filter of `issue_ticket` step 1
(`df[(df["date"]==date_str) & (df["slot_start"]==slot_start) &
(df["slot_end"]==slot_end)]`, line 176) and, identically, the per-row
condition of its step-3 scan (line 221). -/
def matchesSlot (d ss se : String) (r : SlotRow) : Bool :=
  r.date == d && r.slot_start == ss && r.slot_end == se

/-- First matching row together with its 0-based data-row index: `recs.iloc[0]`
of the step-1 filter, and the `break`-terminated step-3 scan of `issue_ticket`
both take the first match in sheet order. -/
def findSlotIdx (d ss se : String) : List SlotRow → Option (Nat × SlotRow)
  | [] => none
  | r :: rest =>
    if matchesSlot d ss se r then some (0, r)
    else
      match findSlotIdx d ss se rest with
      | none => none
      | some (i, x) => some (i + 1, x)

/-- The distinct `RuntimeError`s of `issue_ticket` (lines 175, 178, 181, 185,
225) plus the `ValueError` that `to_dt` can raise at line 193. -/
inductive IssueError where
  | noSlots
  | slotNotFound
  | slotClosed
  | slotFull
  | targetRowNotFound
  | valueError
  deriving DecidableEq, Repr

/-- `issue_ticket(date_str, slot_start, slot_end, method)` (src/app.py lines
169-236).  `slots1` is the step-1 snapshot of the slots worksheet
(`ws_slots.get_all_records()`, line 172); checks run against it.  Steps 2-3
act on the live store `s`: `ensure_headers` on the tickets worksheet, append
of the ticket row, then the step-3 scan (`get_all_values`, line 215) over the
live slots rows to find the row to update; the value written is the stale
`issued + 1` from the step-1 read (line 227).  Returns the Python return value
(or error) together with the resulting store. -/
def issue_ticket_at (slots1 : List SlotRow) (d ss se method : String)
    (now : Nat) (s : Store) : Except IssueError Ticket × Store :=
  if slots1 = [] then (Except.error IssueError.noSlots, s)
  else
    match findSlotIdx d ss se slots1 with
    | none => (Except.error IssueError.slotNotFound, s)
    | some (_, r) =>
      if r.openFlag = false then (Except.error IssueError.slotClosed, s)
      else if r.cap ≤ r.issued then (Except.error IssueError.slotFull, s)
      else
        let s1 := ensureTicketsHeaders s
        match to_dt d se with
        | none => (Except.error IssueError.valueError, s1)
        | some base =>
          let t : Ticket :=
            { ticket_id := mkTicketId now, issued_at := now, date := d,
              slot_start := ss, slot_end := se,
              expires_at := ⟨base.date, base.minutes + EXPIRE_EXTRA_MIN⟩,
              method := method, status := "valid" }
          let s2 : Store := { s1 with tickets := s1.tickets ++ [t] }
          match findSlotIdx d ss se s2.slots with
          | none => (Except.error IssueError.targetRowNotFound, s2)
          | some (i, cur) =>
            (Except.ok t,
             { s2 with slots := s2.slots.set i { cur with issued := r.issued + 1 } })

/-- Sequential `issue_ticket`: no other writer runs between the step-1 read
and the step-3 scan, so the snapshot is the live slots list. -/
def issue_ticket (d ss se method : String) (now : Nat) (s : Store) :
    Except IssueError Ticket × Store :=
  issue_ticket_at s.slots d ss se method now s

/-- The generation loop of `ensure_today_slots` (lines 123-129):
`cur = 11:00; while cur <= 15:30: emit (cur, cur+30); cur += 30`.
In the source these lines are dead code — line 115 raises before they can
run — and they are embedded here to state what the loop would emit.
The loop is driven by its guard `cur ≤ ISSUE_END`; the structural fuel
argument only bounds the iteration count and 16 is more than the 10
iterations the guard allows. -/
def genLoop (cur : Nat) : Nat → List (String × String)
  | 0 => []
  | fuel + 1 =>
    if cur ≤ ISSUE_END then
      (fmtHM cur, fmtHM (cur + SLOT_MINUTES)) :: genLoop (cur + SLOT_MINUTES) fuel
    else []

/-- The rows the dead generation loop would append for day `d`
(`[date_str, slot_start, slot_end, CAP_PER_SLOT, 0, True, ""]`, line 128). -/
def genRows (d : String) : List SlotRow :=
  (genLoop ISSUE_START 16).map fun p =>
    { date := d, slot_start := p.1, slot_end := p.2, cap := CAP_PER_SLOT,
      issued := 0, openFlag := true, note := "" }

/-- The Python exception that aborts `ensure_today_slots`. -/
inductive PyError where
  | noneNotCallable
  deriving DecidableEq, Repr

/-- `ensure_today_slots(date_str)` (src/app.py lines 108-132), faithfully:
it ensures the slots headers (line 113), then line 115 evaluates
`list_slots_df.clear()(date_str)`; `CachedFunc.clear()` returns `None`, so
the expression calls `None` and raises `TypeError: 'NoneType' object is not
callable` on every invocation, aborting the function before the day check
(line 116) and the generation loop (lines 119-131), which are dead code.
The store effect is the header ensure alone; the date argument is never
consumed before the crash. -/
def ensure_today_slots (d : String) (s : Store) : Except PyError Unit × Store :=
  (Except.error PyError.noneNotCallable, ensureSlotsHeaders s)

/-- The row condition of the open/close toggle in `page_manage` (lines 367,
379): `row[date] == d and row[slot_start] + "–" + row[slot_end] == target`
(the separator is U+2013). -/
def manageMatches (d target : String) (r : SlotRow) : Bool :=
  r.date == d && (r.slot_start ++ "–" ++ r.slot_end) == target

/-- First row matching the manage-page condition, with its index. -/
def findManageIdx (d target : String) : List SlotRow → Option (Nat × SlotRow)
  | [] => none
  | r :: rest =>
    if manageMatches d target r then some (0, r)
    else
      match findManageIdx d target rest with
      | none => none
      | some (i, x) => some (i + 1, x)

/-- The slot stop/resume action of `page_manage` (lines 361-383): scan the
data rows in order, write `open := v` into the first row matching today's
date and the selected `start–end` pair, then `break`; if no row matches,
nothing is written.  (The spec names this operation `set_slot_open`.) -/
def set_slot_open (d target : String) (v : Bool) : List SlotRow → List SlotRow
  | [] => []
  | r :: rest =>
    if manageMatches d target r then { r with openFlag := v } :: rest
    else r :: set_slot_open d target v rest

/-- `state_set(key, value)` (src/app.py lines 145-160) on the typed state
rows: overwrite the value of the first row holding `key`, else append
`(key, value)` (also the branch taken when the sheet is empty). -/
def state_set (k v : String) : List (String × String) → List (String × String)
  | [] => [(k, v)]
  | (k', v') :: rest =>
    if k' = k then (k, v) :: rest else (k', v') :: state_set k v rest

/-- The sequential operations of the app that touch the store: lazy slot
generation, ticket issuance (with its clock reading), the admin open/close
toggle, and state-flag updates. -/
inductive Op where
  | ensureSlots (d : String)
  | issue (d ss se method : String) (now : Nat)
  | setOpen (d target : String) (v : Bool)
  | stateSet (k v : String)
  deriving DecidableEq, Repr

/-- The store effect of one sequential operation (for `ensureSlots` the
effect that has happened when the TypeError propagates). -/
def applyOp : Op → Store → Store
  | Op.ensureSlots d, s => (ensure_today_slots d s).2
  | Op.issue d ss se m now, s => (issue_ticket d ss se m now s).2
  | Op.setOpen d target v, s => { s with slots := set_slot_open d target v s.slots }
  | Op.stateSet k v, s => { s with state := state_set k v s.state }

/-- The capacity invariant of the spec: `0 ≤ issued ≤ cap` for every slot. -/
def SlotsInv (s : Store) : Prop := ∀ r ∈ s.slots, 0 ≤ r.issued ∧ r.issued ≤ r.cap

/-- The timestamp `t` lies on the calendar day named `d`. -/
def OnDay (t : LocalDT) (d : String) : Prop := t.date = d ∧ t.minutes < 1440

/-- A small concrete store used to instantiate the theorems: canonical
headers, two open slots of 2024-09-28, no tickets. -/
def demoStore : Store :=
  { slotsHeader := slotsHeaders,
    slots := [⟨"2024-09-28", "11:00", "11:30", 20, 0, true, ""⟩,
              ⟨"2024-09-28", "13:00", "13:30", 20, 0, true, ""⟩],
    ticketsHeader := ticketsHeaders, tickets := [], state := [] }

/-- A concrete store whose worksheets are entirely empty. -/
def emptyStore : Store :=
  { slotsHeader := [], slots := [], ticketsHeader := [], tickets := [],
    state := [] }

/-- A concrete store holding one slot that ends `23:45`, one minute pattern
under which the 30-minute grace period crosses midnight. -/
def lateSlotStore : Store :=
  { slotsHeader := slotsHeaders,
    slots := [⟨"2025-05-01", "23:15", "23:45", 20, 0, true, ""⟩],
    ticketsHeader := ticketsHeaders, tickets := [], state := [] }

/-- A concrete store with one closed slot and one open slot. -/
def closedSlotStore : Store :=
  { slotsHeader := slotsHeaders,
    slots := [⟨"2024-09-28", "11:00", "11:30", 20, 3, false, ""⟩,
              ⟨"2024-09-28", "11:30", "12:00", 20, 0, true, ""⟩],
    ticketsHeader := ticketsHeaders, tickets := [], state := [] }

/-- The ticket produced by issuing 11:00-11:30 of `demoStore` at epoch
second 1727500000 (a 2024-09-28 JST instant). -/
def tktA : Ticket :=
  ⟨"20240928-00000", 1727500000, "2024-09-28", "11:00", "11:30",
   ⟨"2024-09-28", 720⟩, "mobile", "valid"⟩

/-- The ticket produced by issuing 13:00-13:30 of `demoStore` one second
later, at epoch second 1727500001. -/
def tktB : Ticket :=
  ⟨"20240928-00001", 1727500001, "2024-09-28", "13:00", "13:30",
   ⟨"2024-09-28", 840⟩, "mobile", "valid"⟩

/-- The ticket produced by issuing 13:00-13:30 of `demoStore` at epoch
second 1727500000. -/
def tktC : Ticket :=
  ⟨"20240928-00000", 1727500000, "2024-09-28", "13:00", "13:30",
   ⟨"2024-09-28", 840⟩, "mobile", "valid"⟩

/-! ### Helper lemmas about the embedded operations -/

theorem etH_slots (s : Store) : (ensureTicketsHeaders s).slots = s.slots := by
  unfold ensureTicketsHeaders; split <;> [rfl; split <;> rfl]

theorem etH_slotsHeader (s : Store) :
    (ensureTicketsHeaders s).slotsHeader = s.slotsHeader := by
  unfold ensureTicketsHeaders; split <;> [rfl; split <;> rfl]

theorem etH_state (s : Store) : (ensureTicketsHeaders s).state = s.state := by
  unfold ensureTicketsHeaders; split <;> [rfl; split <;> rfl]

theorem findSlotIdx_spec {d ss se : String} :
    ∀ {l : List SlotRow} {i : Nat} {r : SlotRow},
      findSlotIdx d ss se l = some (i, r) →
      l.get? i = some r ∧ matchesSlot d ss se r = true
  | [], i, r, h => by simp [findSlotIdx] at h
  | x :: rest, i, r, h => by
    by_cases hx : matchesSlot d ss se x
    · simp [findSlotIdx, hx] at h
      obtain ⟨hi, hr⟩ := h
      subst hi; subst hr
      exact ⟨rfl, hx⟩
    · simp only [findSlotIdx, if_neg hx] at h
      cases hrec : findSlotIdx d ss se rest with
      | none => rw [hrec] at h; simp at h
      | some p =>
        rw [hrec] at h
        obtain ⟨j, y⟩ := p
        simp at h
        obtain ⟨hi, hr⟩ := h
        subst hr
        have := findSlotIdx_spec (l := rest) hrec
        subst hi
        simpa using this

theorem findSlotIdx_mem {d ss se : String} {l : List SlotRow} {i : Nat}
    {r : SlotRow} (h : findSlotIdx d ss se l = some (i, r)) : r ∈ l := by
  have := (findSlotIdx_spec h).1
  exact List.get?_mem this

theorem findSlotIdx_ne_nil {d ss se : String} {l : List SlotRow} {i : Nat}
    {r : SlotRow} (h : findSlotIdx d ss se l = some (i, r)) : l ≠ [] := by
  intro he; subst he; simp [findSlotIdx] at h

theorem etH_ticketsHeader (s : Store) :
    (ensureTicketsHeaders s).ticketsHeader = ticketsHeaders := by
  unfold ensureTicketsHeaders
  split
  · assumption
  · split <;> rfl

/-- Inversion of a successful sequential `issue_ticket`: the step-1 lookup
found an open, non-full first matching row, the end time parsed, the returned
ticket has exactly the computed fields, and the resulting store appends that
ticket and rewrites the matched row's `issued` cell with the stale read plus
one. -/
theorem issue_ok_inv {d ss se m : String} {now : Nat} {s : Store} {t : Ticket}
    (h : (issue_ticket d ss se m now s).1 = Except.ok t) :
    ∃ i r base, findSlotIdx d ss se s.slots = some (i, r) ∧
      r.openFlag = true ∧ r.issued < r.cap ∧ to_dt d se = some base ∧
      t = { ticket_id := mkTicketId now, issued_at := now, date := d,
            slot_start := ss, slot_end := se,
            expires_at := ⟨base.date, base.minutes + EXPIRE_EXTRA_MIN⟩,
            method := m, status := "valid" } ∧
      (issue_ticket d ss se m now s).2 =
        { slotsHeader := s.slotsHeader,
          slots := s.slots.set i { r with issued := r.issued + 1 },
          ticketsHeader := ticketsHeaders,
          tickets := (ensureTicketsHeaders s).tickets ++ [t],
          state := s.state } := by
  by_cases he : s.slots = []
  · simp [issue_ticket, issue_ticket_at, he] at h
  · cases hf : findSlotIdx d ss se s.slots with
    | none => simp [issue_ticket, issue_ticket_at, he, hf] at h
    | some p =>
      obtain ⟨i, r⟩ := p
      by_cases ho : r.openFlag = false
      · simp [issue_ticket, issue_ticket_at, he, hf, ho] at h
      · by_cases hc : r.cap ≤ r.issued
        · simp [issue_ticket, issue_ticket_at, he, hf, ho, hc] at h
        · cases hd : to_dt d se with
          | none => simp [issue_ticket, issue_ticket_at, he, hf, ho, hc, hd] at h
          | some base =>
            have hcomp :
                issue_ticket d ss se m now s =
                  (Except.ok
                     ({ ticket_id := mkTicketId now, issued_at := now, date := d,
                        slot_start := ss, slot_end := se,
                        expires_at := ⟨base.date, base.minutes + EXPIRE_EXTRA_MIN⟩,
                        method := m, status := "valid" } : Ticket),
                   { slotsHeader := s.slotsHeader,
                     slots := s.slots.set i { r with issued := r.issued + 1 },
                     ticketsHeader := ticketsHeaders,
                     tickets := (ensureTicketsHeaders s).tickets ++
                       [{ ticket_id := mkTicketId now, issued_at := now, date := d,
                          slot_start := ss, slot_end := se,
                          expires_at := ⟨base.date, base.minutes + EXPIRE_EXTRA_MIN⟩,
                          method := m, status := "valid" }],
                     state := s.state }) := by
              simp [issue_ticket, issue_ticket_at, he, hf, ho, hc, hd, etH_slots,
                    etH_slotsHeader, etH_ticketsHeader, etH_state]
            rw [hcomp] at h
            have ht :
                ({ ticket_id := mkTicketId now, issued_at := now, date := d,
                   slot_start := ss, slot_end := se,
                   expires_at := ⟨base.date, base.minutes + EXPIRE_EXTRA_MIN⟩,
                   method := m, status := "valid" } : Ticket) = t := by
              simpa using h
            refine ⟨i, r, base, rfl, ?_, not_le.mp hc, rfl, ht.symm, ?_⟩
            · cases hob : r.openFlag
              · exact absurd hob ho
              · rfl
            · rw [hcomp, ht]

/-- On any failing path, `issue_ticket` leaves the slots worksheet (its rows
and header) and the state worksheet untouched. -/
theorem issue_err_frame {d ss se m : String} {now : Nat} {s : Store}
    {e : IssueError} (h : (issue_ticket d ss se m now s).1 = Except.error e) :
    ((issue_ticket d ss se m now s).2).slots = s.slots ∧
    ((issue_ticket d ss se m now s).2).slotsHeader = s.slotsHeader ∧
    ((issue_ticket d ss se m now s).2).state = s.state := by
  by_cases he : s.slots = []
  · simp [issue_ticket, issue_ticket_at, he]
  · cases hf : findSlotIdx d ss se s.slots with
    | none =>
      simp [issue_ticket, issue_ticket_at, he, hf]
    | some p =>
      obtain ⟨i, r⟩ := p
      by_cases ho : r.openFlag = false
      · simp [issue_ticket, issue_ticket_at, he, hf, ho]
      · by_cases hc : r.cap ≤ r.issued
        · simp [issue_ticket, issue_ticket_at, he, hf, ho, hc]
        · cases hd : to_dt d se with
          | none =>
            simp [issue_ticket, issue_ticket_at, he, hf, ho, hc, hd, etH_slots,
                  etH_slotsHeader, etH_state]
          | some base =>
            simp [issue_ticket, issue_ticket_at, he, hf, ho, hc, hd, etH_slots] at h

/-- The store effect of a sequential `issue_ticket` call, success or not:
the slots header and the state rows are untouched, and the slot rows are
either unchanged or updated at the first matching index, whose stale `issued`
read (checked `< cap`) is written back plus one. -/
theorem issue_effect (d ss se m : String) (now : Nat) (s : Store) :
    ((issue_ticket d ss se m now s).2).slotsHeader = s.slotsHeader ∧
    ((issue_ticket d ss se m now s).2).state = s.state ∧
    (((issue_ticket d ss se m now s).2).slots = s.slots ∨
      ∃ i r, findSlotIdx d ss se s.slots = some (i, r) ∧ r.issued < r.cap ∧
        ((issue_ticket d ss se m now s).2).slots =
          s.slots.set i { r with issued := r.issued + 1 }) := by
  cases hres : (issue_ticket d ss se m now s).1 with
  | error e =>
    obtain ⟨h1, h2, h3⟩ := issue_err_frame hres
    exact ⟨h2, h3, Or.inl h1⟩
  | ok t =>
    obtain ⟨i, r, base, hf, ho, hc, hd, ht, hs⟩ := issue_ok_inv hres
    rw [hs]
    exact ⟨rfl, rfl, Or.inr ⟨i, r, hf, hc, rfl⟩⟩

/-- Membership in `l.set i v` comes from `v` or from `l`. -/
theorem mem_set_cases {α : Type} :
    ∀ {l : List α} {i : Nat} {v x : α}, x ∈ l.set i v → x = v ∨ x ∈ l
  | [], _, _, _, h => by simp at h
  | a :: t, 0, v, x, h => by
    simp only [List.set] at h
    rcases List.mem_cons.mp h with h | h
    · exact Or.inl h
    · exact Or.inr (List.mem_cons_of_mem _ h)
  | a :: t, i + 1, v, x, h => by
    simp only [List.set] at h
    rcases List.mem_cons.mp h with h | h
    · exact Or.inr (h ▸ List.mem_cons_self _ _)
    · rcases mem_set_cases h with h | h
      · exact Or.inl h
      · exact Or.inr (List.mem_cons_of_mem _ h)

theorem esh_slots_cases (s : Store) :
    (ensureSlotsHeaders s).slots = s.slots ∨ (ensureSlotsHeaders s).slots = [] := by
  unfold ensureSlotsHeaders
  split
  · exact Or.inl rfl
  · split
    · exact Or.inl rfl
    · exact Or.inr rfl

/-- With no matching row, the manage-page toggle writes nothing. -/
theorem sso_of_none {d target : String} {v : Bool} :
    ∀ {l : List SlotRow}, findManageIdx d target l = none →
      set_slot_open d target v l = l
  | [], _ => rfl
  | x :: rest, h => by
    by_cases hx : manageMatches d target x
    · simp [findManageIdx, hx] at h
    · simp only [findManageIdx, if_neg hx] at h
      cases hrec : findManageIdx d target rest with
      | none => simp [set_slot_open, hx, sso_of_none hrec]
      | some p =>
        rw [hrec] at h
        obtain ⟨i, y⟩ := p
        simp at h

/-- With a first matching row at index `i`, the manage-page toggle rewrites
exactly that row's open flag. -/
theorem sso_of_some {d target : String} {v : Bool} :
    ∀ {l : List SlotRow} {i : Nat} {r : SlotRow},
      findManageIdx d target l = some (i, r) →
      l.get? i = some r ∧
        set_slot_open d target v l = l.set i { r with openFlag := v }
  | [], i, r, h => by simp [findManageIdx] at h
  | x :: rest, i, r, h => by
    by_cases hx : manageMatches d target x
    · simp [findManageIdx, hx] at h
      obtain ⟨hi, hr⟩ := h
      subst hi; subst hr
      simp [set_slot_open, hx, List.set]
    · simp only [findManageIdx, if_neg hx] at h
      cases hrec : findManageIdx d target rest with
      | none => rw [hrec] at h; simp at h
      | some p =>
        rw [hrec] at h
        obtain ⟨j, y⟩ := p
        simp at h
        obtain ⟨hi, hr⟩ := h
        subst hr
        have hrest := sso_of_some (v := v) (l := rest) hrec
        subst hi
        constructor
        · simpa [List.get?] using hrest.1
        · simp [set_slot_open, hx, List.set, hrest.2]

/-- The manage-page toggle never changes an `issued` or `cap` value. -/
theorem sso_issued_cap {d target : String} {v : Bool} :
    ∀ {l : List SlotRow} {x : SlotRow}, x ∈ set_slot_open d target v l →
      ∃ r ∈ l, x.issued = r.issued ∧ x.cap = r.cap
  | [], x, h => by simp [set_slot_open] at h
  | r :: rest, x, h => by
    by_cases hr : manageMatches d target r
    · simp only [set_slot_open, if_pos hr] at h
      rcases List.mem_cons.mp h with h | h
      · exact ⟨r, List.mem_cons_self _ _, by rw [h], by rw [h]⟩
      · exact ⟨x, List.mem_cons_of_mem _ h, rfl, rfl⟩
    · simp only [set_slot_open, if_neg hr] at h
      rcases List.mem_cons.mp h with h | h
      · exact ⟨r, List.mem_cons_self _ _, by rw [h], by rw [h]⟩
      · obtain ⟨y, hy, h1, h2⟩ := sso_issued_cap h
        exact ⟨y, List.mem_cons_of_mem _ hy, h1, h2⟩

theorem dig_inj : ∀ a, a < 10 → ∀ b, b < 10 → dig a = dig b → a = b := by decide

/-- The five-digit zero-padded rendering is injective below `100000`. -/
theorem pad5_inj {a b : Nat} (ha : a < 100000) (hb : b < 100000)
    (h : pad5 a = pad5 b) : a = b := by
  have h' : ([dig (a / 10000 % 10), dig (a / 1000 % 10), dig (a / 100 % 10),
      dig (a / 10 % 10), dig (a % 10)] : List Char) =
      [dig (b / 10000 % 10), dig (b / 1000 % 10), dig (b / 100 % 10),
       dig (b / 10 % 10), dig (b % 10)] := String.ext_iff.mp h
  simp only [List.cons.injEq, and_true] at h'
  obtain ⟨h4, h3, h2, h1, h0⟩ := h'
  have e4 := dig_inj _ (Nat.mod_lt _ (by norm_num)) _ (Nat.mod_lt _ (by norm_num)) h4
  have e3 := dig_inj _ (Nat.mod_lt _ (by norm_num)) _ (Nat.mod_lt _ (by norm_num)) h3
  have e2 := dig_inj _ (Nat.mod_lt _ (by norm_num)) _ (Nat.mod_lt _ (by norm_num)) h2
  have e1 := dig_inj _ (Nat.mod_lt _ (by norm_num)) _ (Nat.mod_lt _ (by norm_num)) h1
  have e0 := dig_inj _ (Nat.mod_lt _ (by norm_num)) _ (Nat.mod_lt _ (by norm_num)) h0
  omega

/-- The `%Y%m%d` prefix only depends on the JST calendar day. -/
theorem ymdStr_congr {n1 n2 : Nat} (h : dayIndexJST n1 = dayIndexJST n2) :
    ymdStr n1 = ymdStr n2 := by
  unfold ymdStr
  rw [h]

/-- Ticket ids of two distinct whole-second clock readings on the same JST
calendar day are distinct: the day prefix agrees and the epoch-second
suffixes, which differ by less than a day (hence by less than `100000`),
render differently. -/
theorem mkTicketId_ne {n1 n2 : Nat} (hday : dayIndexJST n1 = dayIndexJST n2)
    (hne : n1 ≠ n2) : mkTicketId n1 ≠ mkTicketId n2 := by
  have hymd := ymdStr_congr hday
  have hmod : n1 % 100000 ≠ n2 % 100000 := by
    unfold dayIndexJST at hday
    omega
  intro h
  apply hmod
  unfold mkTicketId at h
  rw [hymd] at h
  have hd := congrArg String.data h
  rw [String.data_append, String.data_append, String.data_append,
      String.data_append] at hd
  exact pad5_inj (Nat.mod_lt _ (by norm_num)) (Nat.mod_lt _ (by norm_num))
    (String.ext (List.append_cancel_left hd))

/-- `to_dt` always returns a datetime anchored on the given date string. -/
theorem to_dt_shape {d hm : String} {b : LocalDT} (h : to_dt d hm = some b) :
    ∃ p, b = ⟨d, p⟩ := by
  unfold to_dt at h
  split at h
  · split at h
    · split at h
      · exact ⟨_, (Option.some.inj h).symm⟩
      · simp at h
    · simp at h
  · simp at h

/-! ### The claims -/

/-- Claim C8: on a worksheet whose first row is non-empty and differs from
the expected header list, `ensure_headers` clears the whole worksheet —
discarding every data row — and writes the expected headers; when the first
row already equals the expected headers, or is empty, no data row is
removed. -/
theorem C8_destructive_header_reset (ws : List (List String))
    (headers : List String) :
    (ws.headD [] ≠ headers → ws.headD [] ≠ [] →
      ensure_headers ws headers = [headers]) ∧
    (ws.headD [] = headers → ensure_headers ws headers = ws) ∧
    (headers ≠ [] → ws.headD [] = [] →
      ensure_headers ws headers = headers :: ws.tail) := by
  refine ⟨?_, ?_, ?_⟩
  · intro h1 h2
    simp only [ensure_headers]
    rw [if_neg h1, if_neg h2]
  · intro h
    simp only [ensure_headers]
    rw [if_pos h]
  · intro hne h
    simp only [ensure_headers, h]
    rw [if_neg fun hc => hne hc.symm, if_true]
    cases ws <;> rfl

/-- Witness for C8: the three header cases on concrete worksheets — a stale
header row wipes the sheet, a matching header row is a no-op, an empty sheet
just receives the header row. -/
theorem C8_destructive_header_reset_witness :
    ensure_headers [["stale"], ["1", "2"]] ["k", "v"] = [["k", "v"]] ∧
    ensure_headers [["k", "v"], ["1", "2"]] ["k", "v"] = [["k", "v"], ["1", "2"]] ∧
    ensure_headers [] ["k", "v"] = [["k", "v"]] :=
  ⟨(C8_destructive_header_reset [["stale"], ["1", "2"]] ["k", "v"]).1
      (by decide) (by decide),
   (C8_destructive_header_reset [["k", "v"], ["1", "2"]] ["k", "v"]).2.1
      (by decide),
   (C8_destructive_header_reset [] ["k", "v"]).2.2 (by decide) (by decide)⟩

/-- Claim C9: the admin stop/resume action updates only the `open` cell of
the first slot row matching the given date and `start–end` target — the
record update keeps every other field of that row, `issued` and `cap`
included — and every other row is unchanged (and with no matching row the
sheet is untouched). -/
theorem C9_set_slot_open_frame (d target : String) (v : Bool)
    (slots : List SlotRow) :
    (findManageIdx d target slots = none →
      set_slot_open d target v slots = slots) ∧
    (∀ i r, findManageIdx d target slots = some (i, r) →
      slots.get? i = some r ∧
      set_slot_open d target v slots = slots.set i { r with openFlag := v } ∧
      ∀ j, j ≠ i → (set_slot_open d target v slots).get? j = slots.get? j) := by
  refine ⟨fun h => sso_of_none h, fun i r h => ?_⟩
  obtain ⟨h1, h2⟩ := sso_of_some (v := v) h
  refine ⟨h1, h2, fun j hj => ?_⟩
  rw [h2]
  exact List.get?_set_ne _ _ (Ne.symm hj)

/-- Witness for C9: stopping the 11:00 slot of the demo store rewrites only
row 0's open flag. -/
theorem C9_set_slot_open_frame_witness :
    demoStore.slots.get? 0 =
      some ⟨"2024-09-28", "11:00", "11:30", 20, 0, true, ""⟩ ∧
    set_slot_open "2024-09-28" "11:00–11:30" false demoStore.slots =
      demoStore.slots.set 0
        { (⟨"2024-09-28", "11:00", "11:30", 20, 0, true, ""⟩ : SlotRow) with
          openFlag := false } :=
  ⟨((C9_set_slot_open_frame "2024-09-28" "11:00–11:30" false demoStore.slots).2
      0 ⟨"2024-09-28", "11:00", "11:30", 20, 0, true, ""⟩ (by decide)).1,
   ((C9_set_slot_open_frame "2024-09-28" "11:00–11:30" false demoStore.slots).2
      0 ⟨"2024-09-28", "11:00", "11:30", 20, 0, true, ""⟩ (by decide)).2.1⟩

/-- Claim C7: when the first matching slot row is closed (`open = false`),
`issue_ticket` fails with the slot-closed error and returns the store
completely unchanged: no ticket row is appended and every `issued` counter
keeps its value. -/
theorem C7_closed_slot_rejection (d ss se m : String) (now : Nat) (s : Store)
    (i : Nat) (r : SlotRow) (h : findSlotIdx d ss se s.slots = some (i, r))
    (hc : r.openFlag = false) :
    issue_ticket d ss se m now s = (Except.error IssueError.slotClosed, s) := by
  have hne := findSlotIdx_ne_nil h
  simp [issue_ticket, issue_ticket_at, hne, h, hc]

/-- Witness for C7: issuing against the closed 11:00 slot of
`closedSlotStore` is rejected and the store value is returned unchanged. -/
theorem C7_closed_slot_rejection_witness :
    issue_ticket "2024-09-28" "11:00" "11:30" "mobile" 1727500000
        closedSlotStore =
      (Except.error IssueError.slotClosed, closedSlotStore) :=
  C7_closed_slot_rejection "2024-09-28" "11:00" "11:30" "mobile" 1727500000
    closedSlotStore 0 ⟨"2024-09-28", "11:00", "11:30", 20, 3, false, ""⟩
    (by decide) (by decide)

/-- Claim C3 (code bug): on a fresh day `ensure_today_slots` generates
nothing — line 115 calls the `None` returned by `CachedFunc.clear()` and
raises `TypeError` before the day check and the generation loop, so the
call errors and the slots worksheet stays without data rows; the dead loop
of lines 119-131 would have produced exactly the ten slots the claim (and
the evident intent of the code) describes, in order, each with `cap = 20`,
`issued = 0`, `open = true` and `end = start + 30min`. -/
theorem C3_generation_never_runs :
    (ensure_today_slots "2024-09-28" emptyStore).1 =
      Except.error PyError.noneNotCallable ∧
    ((ensure_today_slots "2024-09-28" emptyStore).2).slots = [] ∧
    genRows "2024-09-28" =
      [⟨"2024-09-28", "11:00", "11:30", 20, 0, true, ""⟩,
       ⟨"2024-09-28", "11:30", "12:00", 20, 0, true, ""⟩,
       ⟨"2024-09-28", "12:00", "12:30", 20, 0, true, ""⟩,
       ⟨"2024-09-28", "12:30", "13:00", 20, 0, true, ""⟩,
       ⟨"2024-09-28", "13:00", "13:30", 20, 0, true, ""⟩,
       ⟨"2024-09-28", "13:30", "14:00", 20, 0, true, ""⟩,
       ⟨"2024-09-28", "14:00", "14:30", 20, 0, true, ""⟩,
       ⟨"2024-09-28", "14:30", "15:00", 20, 0, true, ""⟩,
       ⟨"2024-09-28", "15:00", "15:30", 20, 0, true, ""⟩,
       ⟨"2024-09-28", "15:30", "16:00", 20, 0, true, ""⟩] :=
  ⟨rfl, rfl, by decide⟩

/-- Claim C2: `issue_ticket` checks its failure conditions in order — first
the no-matching-row stage (realised by the code as the `noSlots` message when
the whole sheet is empty and the `slotNotFound` message otherwise, both
raised before anything else is examined), then `slotClosed` on the matched
row's open flag, then `slotFull` on `issued ≥ cap` — each later check is
reached only when every earlier one passes, at most one error is produced
per call, and when all checks pass (and the end time parses, as it does for
every `HH:MM` value) a ticket is returned. -/
theorem C2_issue_error_order (d ss se m : String) (now : Nat) (s : Store) :
    (findSlotIdx d ss se s.slots = none →
      (issue_ticket d ss se m now s).1 =
        Except.error
          (if s.slots = [] then IssueError.noSlots else IssueError.slotNotFound)) ∧
    (∀ i r, findSlotIdx d ss se s.slots = some (i, r) →
      (r.openFlag = false →
        (issue_ticket d ss se m now s).1 = Except.error IssueError.slotClosed) ∧
      (r.openFlag = true → r.cap ≤ r.issued →
        (issue_ticket d ss se m now s).1 = Except.error IssueError.slotFull) ∧
      (r.openFlag = true → r.issued < r.cap → ∀ b, to_dt d se = some b →
        (issue_ticket d ss se m now s).1 =
          Except.ok
            { ticket_id := mkTicketId now, issued_at := now, date := d,
              slot_start := ss, slot_end := se,
              expires_at := ⟨b.date, b.minutes + EXPIRE_EXTRA_MIN⟩,
              method := m, status := "valid" })) := by
  constructor
  · intro h
    by_cases he : s.slots = []
    · simp [issue_ticket, issue_ticket_at, he]
    · simp [issue_ticket, issue_ticket_at, he, h]
  · intro i r h
    have hne := findSlotIdx_ne_nil h
    refine ⟨?_, ?_, ?_⟩
    · intro hc
      simp [issue_ticket, issue_ticket_at, hne, h, hc]
    · intro ho hfull
      simp [issue_ticket, issue_ticket_at, hne, h, ho, hfull]
    · intro ho hlt b hb
      simp [issue_ticket, issue_ticket_at, hne, h, ho, not_le.mpr hlt, hb,
            etH_slots]

/-- Witness for C2: on the demo store the success stage applies and returns
the computed ticket. -/
theorem C2_issue_error_order_witness :
    (issue_ticket "2024-09-28" "11:00" "11:30" "mobile" 1727500000
        demoStore).1 =
      Except.ok
        { ticket_id := mkTicketId 1727500000, issued_at := 1727500000,
          date := "2024-09-28", slot_start := "11:00", slot_end := "11:30",
          expires_at := ⟨"2024-09-28", 690 + EXPIRE_EXTRA_MIN⟩,
          method := "mobile", status := "valid" } :=
  (((C2_issue_error_order "2024-09-28" "11:00" "11:30" "mobile" 1727500000
      demoStore).2 0 ⟨"2024-09-28", "11:00", "11:30", 20, 0, true, ""⟩
      (by decide)).2.2 (by decide) (by decide) ⟨"2024-09-28", 690⟩ (by decide))

/-- Claim C1: from a state in which every slot satisfies
`0 ≤ issued ≤ cap`, every sequential operation — the `ensure_today_slots`
call (whose real store effect is the header ensure alone, line 115 aborting
it before any generation), ticket issuance, the admin open/close toggle,
state-flag updates — preserves `0 ≤ issued ≤ cap` for every slot; in
particular a successful `issue_ticket` increments exactly the first matched
row's `issued` by one, and only when `issued < cap` held at the check. -/
theorem C1_capacity_invariant (op : Op) (s : Store) (hInv : SlotsInv s) :
    SlotsInv (applyOp op s) ∧
    (∀ d ss se m now t, (issue_ticket d ss se m now s).1 = Except.ok t →
      ∃ i r, findSlotIdx d ss se s.slots = some (i, r) ∧ r.issued < r.cap ∧
        ((issue_ticket d ss se m now s).2).slots =
          s.slots.set i { r with issued := r.issued + 1 }) := by
  constructor
  · cases op with
    | ensureSlots d =>
      intro x hx
      simp only [applyOp, ensure_today_slots] at hx
      rcases esh_slots_cases s with hc | hc <;> rw [hc] at hx
      · exact hInv x hx
      · simp at hx
    | issue d ss se m now =>
      intro x hx
      simp only [applyOp] at hx
      obtain ⟨-, -, hcase⟩ := issue_effect d ss se m now s
      rcases hcase with hsame | ⟨i, r, hf, hlt, hset⟩
      · rw [hsame] at hx
        exact hInv x hx
      · rw [hset] at hx
        rcases mem_set_cases hx with hx | hx
        · subst hx
          have hr := hInv r (findSlotIdx_mem hf)
          constructor
          · show (0 : Int) ≤ r.issued + 1
            omega
          · show r.issued + 1 ≤ r.cap
            omega
        · exact hInv x hx
    | setOpen d target v =>
      intro x hx
      simp only [applyOp] at hx
      obtain ⟨r, hr, h1, h2⟩ := sso_issued_cap hx
      rw [h1, h2]
      exact hInv r hr
    | stateSet k v =>
      intro x hx
      simp only [applyOp] at hx
      exact hInv x hx
  · intro d ss se m now t h
    obtain ⟨i, r, base, hf, ho, hlt, hd, ht, hs⟩ := issue_ok_inv h
    exact ⟨i, r, hf, hlt, by rw [hs]⟩

/-- Witness for C1: after one issuance on the demo store the invariant still
holds for every slot. -/
theorem C1_capacity_invariant_witness :
    SlotsInv (applyOp (Op.issue "2024-09-28" "11:00" "11:30" "mobile"
      1727500000) demoStore) :=
  (C1_capacity_invariant
      (Op.issue "2024-09-28" "11:00" "11:30" "mobile" 1727500000) demoStore
      (by unfold SlotsInv; decide)).1

/-- Claim C5 (code bug): the generation whose idempotency the claim
describes never occurs — both calls of `ensure_today_slots` raise the
line-115 `TypeError`.  Evaluated at the claimed scenario (two calls for the
same date on a fresh store): each call errors, the second call's store
effect is the identity (the first already wrote the canonical headers), and
no slot row exists after either call. -/
theorem C5_generation_crashes :
    (ensure_today_slots "2024-09-28" emptyStore).1 =
      Except.error PyError.noneNotCallable ∧
    (ensure_today_slots "2024-09-28"
        ((ensure_today_slots "2024-09-28" emptyStore).2)).1 =
      Except.error PyError.noneNotCallable ∧
    (ensure_today_slots "2024-09-28"
        ((ensure_today_slots "2024-09-28" emptyStore).2)).2 =
      (ensure_today_slots "2024-09-28" emptyStore).2 ∧
    ((ensure_today_slots "2024-09-28" emptyStore).2).slots = [] := by
  refine ⟨rfl, rfl, ?_, rfl⟩
  decide

/-- Claim C4, amended: the expiry of every successfully issued ticket is
`combine(date, slot_end)` plus the 30-minute grace period; this timestamp
lies on the same calendar day whenever `slot_end` plus the grace period does
not pass midnight (true in particular for every generated slot, which ends
by 16:00). -/
theorem C4_expiry_amended (d ss se m : String) (now : Nat) (s : Store)
    (t : Ticket) (h : (issue_ticket d ss se m now s).1 = Except.ok t) :
    ∃ p, to_dt d se = some ⟨d, p⟩ ∧
      t.expires_at = ⟨d, p + EXPIRE_EXTRA_MIN⟩ ∧
      (p + EXPIRE_EXTRA_MIN < 1440 → OnDay t.expires_at d) := by
  obtain ⟨i, r, base, hf, ho, hlt, hd, ht, hs⟩ := issue_ok_inv h
  obtain ⟨p, hb⟩ := to_dt_shape hd
  subst hb
  refine ⟨p, hd, ?_, ?_⟩
  · rw [ht]
  · intro hlt1440
    rw [ht]
    exact ⟨rfl, hlt1440⟩

/-- Counterexample to claim C4 as stated: issuing against a slot that ends
23:45 succeeds and its expiry, 23:45 plus the 30-minute grace, is 00:15 of
the NEXT calendar day, not the same one. -/
theorem C4_counterexample :
    ((issue_ticket "2025-05-01" "23:15" "23:45" "mobile" 1746000000
        lateSlotStore).1.toOption.map (fun t => t.expires_at)) =
      some ⟨"2025-05-01", 1455⟩ ∧
    ¬ OnDay ⟨"2025-05-01", 1455⟩ "2025-05-01" := by
  constructor
  · decide
  · unfold OnDay
    decide

/-- Witness for the amended C4: the spec's own instance — a ticket for slot
13:00-13:30 expires at minute 840 = 14:00 of the same day. -/
theorem C4_expiry_amended_witness :
    ∃ p, to_dt "2024-09-28" "13:30" = some ⟨"2024-09-28", p⟩ ∧
      tktC.expires_at = ⟨"2024-09-28", p + EXPIRE_EXTRA_MIN⟩ ∧
      (p + EXPIRE_EXTRA_MIN < 1440 → OnDay tktC.expires_at "2024-09-28") :=
  C4_expiry_amended "2024-09-28" "13:00" "13:30" "mobile" 1727500000 demoStore
    tktC rfl

/-- Claim C6, amended: two successful issuances whose clock readings fall on
the same JST calendar day receive distinct ticket ids PROVIDED the readings
differ in their whole epoch second — the id is
`{YYYYMMDD}-{epoch mod 100000 :05d}`, the same-day prefixes agree and the
suffixes differ because same-day seconds differ by less than `100000`;
two issuances within the same wall-clock second collide. -/
theorem C6_per_day_id_uniqueness_amended (d1 ss1 se1 m1 d2 ss2 se2 m2 : String)
    (n1 n2 : Nat) (s1 s2 : Store) (t1 t2 : Ticket)
    (h1 : (issue_ticket d1 ss1 se1 m1 n1 s1).1 = Except.ok t1)
    (h2 : (issue_ticket d2 ss2 se2 m2 n2 s2).1 = Except.ok t2)
    (hday : dayIndexJST n1 = dayIndexJST n2) (hne : n1 ≠ n2) :
    t1.ticket_id ≠ t2.ticket_id := by
  obtain ⟨_, _, _, -, -, -, -, ht1, -⟩ := issue_ok_inv h1
  obtain ⟨_, _, _, -, -, -, -, ht2, -⟩ := issue_ok_inv h2
  rw [ht1, ht2]
  exact mkTicketId_ne hday hne

/-- Counterexample to claim C6 as stated: two successive successful
issuances carried out within the same epoch second (clock reading
1727500000, a 2024-09-28 JST instant) both receive the id
`20240928-00000`. -/
theorem C6_counterexample :
    ((issue_ticket "2024-09-28" "11:00" "11:30" "mobile" 1727500000
        demoStore).1.toOption.map (fun t => t.ticket_id)) =
      some "20240928-00000" ∧
    ((issue_ticket "2024-09-28" "13:00" "13:30" "mobile" 1727500000
        ((issue_ticket "2024-09-28" "11:00" "11:30" "mobile" 1727500000
          demoStore).2)).1.toOption.map (fun t => t.ticket_id)) =
      some "20240928-00000" := by
  constructor
  · decide
  · decide

/-- Witness for the amended C6: one second apart on the same day, the two
demo issuances get the distinct ids `20240928-00000` and `20240928-00001`. -/
theorem C6_per_day_id_uniqueness_amended_witness :
    tktA.ticket_id ≠ tktB.ticket_id :=
  C6_per_day_id_uniqueness_amended "2024-09-28" "11:00" "11:30" "mobile"
    "2024-09-28" "13:00" "13:30" "mobile" 1727500000 1727500001
    demoStore demoStore tktA tktB rfl rfl (by decide) (by decide)

/-- Claim C10: if the step-1 read of `issue_ticket` finds a matching open,
non-full slot but the step-3 row scan over the (meanwhile changed) slots
worksheet finds no matching row, the call fails with the
update-target-not-found error AFTER the ticket row has been appended: the
resulting store durably holds the new ticket while no slot's issued counter
was incremented. -/
theorem C10_nonatomic_failure (slots1 : List SlotRow) (d ss se m : String)
    (now : Nat) (s : Store) (i : Nat) (r : SlotRow) (b : LocalDT)
    (h1 : findSlotIdx d ss se slots1 = some (i, r)) (h2 : r.openFlag = true)
    (h3 : r.issued < r.cap) (h4 : to_dt d se = some b)
    (h5 : findSlotIdx d ss se s.slots = none) :
    (issue_ticket_at slots1 d ss se m now s).1 =
        Except.error IssueError.targetRowNotFound ∧
      ((issue_ticket_at slots1 d ss se m now s).2).tickets =
        (ensureTicketsHeaders s).tickets ++
          [{ ticket_id := mkTicketId now, issued_at := now, date := d,
             slot_start := ss, slot_end := se,
             expires_at := ⟨b.date, b.minutes + EXPIRE_EXTRA_MIN⟩,
             method := m, status := "valid" }] ∧
      ((issue_ticket_at slots1 d ss se m now s).2).slots = s.slots := by
  have hne := findSlotIdx_ne_nil h1
  refine ⟨?_, ?_, ?_⟩ <;>
    simp [issue_ticket_at, hne, h1, h2, not_le.mpr h3, h4, etH_slots, h5]

/-- Witness for C10: the step-1 snapshot holds the demo slots while the live
store's slots worksheet is empty; the call errors, yet the ticket row is in
the resulting store and the slots are untouched. -/
theorem C10_nonatomic_failure_witness :
    (issue_ticket_at demoStore.slots "2024-09-28" "11:00" "11:30" "mobile"
        1727500000 emptyStore).1 =
        Except.error IssueError.targetRowNotFound ∧
      ((issue_ticket_at demoStore.slots "2024-09-28" "11:00" "11:30" "mobile"
          1727500000 emptyStore).2).tickets =
        (ensureTicketsHeaders emptyStore).tickets ++
          [{ ticket_id := mkTicketId 1727500000, issued_at := 1727500000,
             date := "2024-09-28", slot_start := "11:00", slot_end := "11:30",
             expires_at := ⟨"2024-09-28", 690 + EXPIRE_EXTRA_MIN⟩,
             method := "mobile", status := "valid" }] ∧
      ((issue_ticket_at demoStore.slots "2024-09-28" "11:00" "11:30" "mobile"
          1727500000 emptyStore).2).slots = emptyStore.slots :=
  C10_nonatomic_failure demoStore.slots "2024-09-28" "11:00" "11:30" "mobile"
    1727500000 emptyStore 0 ⟨"2024-09-28", "11:00", "11:30", 20, 0, true, ""⟩
    ⟨"2024-09-28", 690⟩ (by decide) (by decide) (by decide) (by decide)
    (by decide)

end Crepe
